import Mathlib

/-!
Shallow embedding of src/src/components/AddressSelector.tsx.
Each React handler becomes a pure function from the pre-state and the outcome
of the api call it issues to the post-state together with the list of
observable effects it emits (network calls, toasts, parent callbacks,
console logging).
-/

namespace AddressSelector

/-- Address record from the source interface (lines 10 to 21); the optional
fields are modelled as Option. -/
structure Address where
  _id : Option String
  name : String
  phone : String
  houseNumber : String
  area : String
  city : String
  state : String
  pincode : String
  landmark : Option String
  isDefault : Option Bool
deriving DecidableEq, Repr

/-- Toast payload as passed to the toast hook: title, description and the
optional variant. -/
structure Toast where
  title : String
  description : String
  variant : Option String
deriving DecidableEq, Repr

/-- Modelled from the spec: the shared HTTP helper at lib/api is not under
src. Per the spec it returns a uniform record of ok and json where ok gates
the success branch, so a non-ok HTTP status is a resolved value, not a thrown
exception; only a transport failure throws. ApiJson records whether json has
a data field holding an array (the only observation the component makes). -/
inductive ApiJson where
  | withList (l : List Address)
  | other
deriving DecidableEq, Repr

/-- Modelled from the spec: outcome of one api call, either a thrown
transport error or a resolved response carrying ok and json. -/
inductive ApiResult where
  | thrown
  | response (ok : Bool) (json : ApiJson)
deriving DecidableEq, Repr

/-- Observable effects emitted during one handler run, in order. -/
inductive Effect where
  | networkCall (method : String) (path : String) (body : Option Address)
  | toast (t : Toast)
  | onAddressSelected (a : Address)
  | onAddressCreated
  | consoleError (msg : String)
deriving DecidableEq, Repr

/-- Component state: the five useState cells of the component (lines 30
to 44). -/
structure ComponentState where
  addresses : List Address
  loading : Bool
  showForm : Bool
  selectedAddressId : Option String
  formData : Address
  submitting : Bool
deriving DecidableEq, Repr

/-- The all-empty draft: the initial formData (lines 34 to 43) and the reset
value written on successful submission (lines 89 to 98). -/
def emptyDraft : Address :=
  { _id := none, name := "", phone := "", houseNumber := "", area := "",
    city := "", state := "", pincode := "", landmark := some "",
    isDefault := none }

/-- The state at mount, before the initial fetch resolves. -/
def initialState : ComponentState :=
  { addresses := [], loading := true, showForm := false,
    selectedAddressId := none, formData := emptyDraft, submitting := false }

/-- Toast shown when a required field is missing (lines 71 to 75). -/
def missingFieldsToast : Toast :=
  { title := "Missing Fields",
    description := "Please fill in all required fields",
    variant := some "destructive" }

/-- Toast shown on successful creation (lines 99 to 102). -/
def addressAddedToast : Toast :=
  { title := "Address Added",
    description := "Your address has been saved successfully",
    variant := none }

/-- Toast shown when the create call throws (lines 109 to 113). -/
def addErrorToast : Toast :=
  { title := "Error", description := "Failed to add address",
    variant := some "destructive" }

/-- Toast shown on successful deletion (lines 132 to 135). -/
def addressDeletedToast : Toast :=
  { title := "Address Deleted",
    description := "Your address has been removed",
    variant := none }

/-- Toast shown when the delete call throws (lines 139 to 143). -/
def deleteErrorToast : Toast :=
  { title := "Error", description := "Failed to delete address",
    variant := some "destructive" }

/-- JS truthiness of the optional id string used at line 57: the guard
defaultAddr?._id is truthy exactly when the id is present and non-empty. -/
def idTruthy : Option String → Bool
  | some s => s != ""
  | none => false

/-- JS truthiness of the isDefault flag used by the find at line 56. -/
def isDefaultTruthy (a : Address) : Bool := a.isDefault.getD false

/-- The seven required-field truthiness checks of line 70; landmark is not
inspected. -/
def requiredFieldsPresent (f : Address) : Bool :=
  f.name != "" && f.phone != "" && f.houseNumber != "" && f.area != "" &&
  f.city != "" && f.state != "" && f.pincode != ""

/-- fetchAddresses (lines 50 to 67): issues a GET; when ok and json.data is
an array it stores the list, then the first default-flagged element with a
truthy id becomes the selection and is reported to the parent; a thrown
error is only logged; loading ends false in every case. -/
def fetchAddresses (s : ComponentState) (r : ApiResult) :
    ComponentState × List Effect :=
  let call := Effect.networkCall "GET" "/api/auth/addresses" none
  match r with
  | .thrown =>
      ({ s with loading := false },
        [call, .consoleError "Failed to fetch addresses:"])
  | .response ok j =>
      match ok, j with
      | true, .withList l =>
          match l.find? isDefaultTruthy with
          | some d =>
              if idTruthy d._id then
                ({ s with
                    loading := false
                    addresses := l
                    selectedAddressId := d._id },
                  [call, .onAddressSelected d])
              else
                ({ s with loading := false, addresses := l }, [call])
          | none =>
              ({ s with loading := false, addresses := l }, [call])
      | _, _ => ({ s with loading := false }, [call])

/-- handleAddAddress (lines 69 to 117): local validation first, rejecting
with a destructive toast and no call when a required field is empty;
otherwise one POST with the serialized formData; on ok with array data the
list is replaced, the form hidden, the draft reset, a success toast shown
and the optional onAddressCreated callback invoked; a thrown error is logged
and surfaces the generic error toast; submitting ends false. The boolean h
records whether the parent supplied onAddressCreated. -/
def handleAddAddress (h : Bool) (s : ComponentState) (r : ApiResult) :
    ComponentState × List Effect :=
  if requiredFieldsPresent s.formData then
    let call := Effect.networkCall "POST" "/api/auth/addresses"
      (some s.formData)
    match r with
    | .thrown =>
        ({ s with submitting := false },
          [call, .consoleError "Failed to add address:",
            .toast addErrorToast])
    | .response ok j =>
        match ok, j with
        | true, .withList l =>
            ({ s with
                submitting := false
                addresses := l
                showForm := false
                formData := emptyDraft },
              [call, .toast addressAddedToast] ++
                (if h then [Effect.onAddressCreated] else []))
        | _, _ => ({ s with submitting := false }, [call])
  else
    (s, [.toast missingFieldsToast])

/-- handleDeleteAddress (lines 119 to 145): declining the confirmation
prompt aborts with no call and no change; on confirm one DELETE for the id;
on ok with array data the list is replaced and a selection equal to the
deleted id is cleared without renotifying the parent; a thrown error is
logged and surfaces the generic error toast. -/
def handleDeleteAddress (s : ComponentState) (id : String)
    (confirmed : Bool) (r : ApiResult) : ComponentState × List Effect :=
  if confirmed then
    let call := Effect.networkCall "DELETE"
      ("/api/auth/addresses/" ++ id) none
    match r with
    | .thrown =>
        (s, [call, .consoleError "Failed to delete address:",
          .toast deleteErrorToast])
    | .response ok j =>
        match ok, j with
        | true, .withList l =>
            ({ s with
                addresses := l
                selectedAddressId :=
                  if s.selectedAddressId == some id then none
                  else s.selectedAddressId },
              [call, .toast addressDeletedToast])
        | _, _ => (s, [call])
  else (s, [])

/-- Card onClick (lines 169 to 172): sets the selection to the card id
(empty string when the id is absent, from the JS or-default) and notifies
the parent with the full Address; purely local. -/
def cardClick (s : ComponentState) (a : Address) :
    ComponentState × List Effect :=
  ({ s with selectedAddressId := some (a._id.getD "") },
    [.onAddressSelected a])

/-- Cancel button onClick (lines 300 to 306): only hides the form. -/
def cancelClick (s : ComponentState) : ComponentState × List Effect :=
  ({ s with showForm := false }, [])

/-- Recognizer for network-call effects. -/
def Effect.isNetworkCall : Effect → Bool
  | .networkCall _ _ _ => true
  | _ => false

/-- Recognizer for toast effects of any kind. -/
def Effect.isToast : Effect → Bool
  | .toast _ => true
  | _ => false

/-- Recognizer for onAddressSelected callback effects. -/
def Effect.isOnAddressSelected : Effect → Bool
  | .onAddressSelected _ => true
  | _ => false

/-- Recognizer for onAddressCreated callback effects. -/
def Effect.isOnAddressCreated : Effect → Bool
  | .onAddressCreated => true
  | _ => false

/-- Classifier for the failure outcomes named by the spec: a thrown
transport error or a resolved response with ok false. -/
def failedResult : ApiResult → Bool
  | .thrown => true
  | .response ok _ => !ok

/-- A concrete valid address, ids assigned, flagged default. -/
def sampleAddress : Address :=
  { _id := some "a1", name := "Asha Rao", phone := "9999999999",
    houseNumber := "12", area := "MG Road", city := "Pune", state := "MH",
    pincode := "411001", landmark := some "", isDefault := some true }

/-- A concrete address without the default flag. -/
def plainAddress : Address :=
  { sampleAddress with _id := some "a2", isDefault := none }

/-- A default-flagged address whose optional id is absent. -/
def noIdDefaultAddress : Address :=
  { sampleAddress with _id := none }

/-- A fully filled draft (all seven required fields non-empty, no id). -/
def sampleDraft : Address :=
  { emptyDraft with
      name := "Asha Rao"
      phone := "9999999999"
      houseNumber := "12"
      area := "MG Road"
      city := "Pune"
      state := "MH"
      pincode := "411001" }

/-- A concrete pre-submit state: form open, draft filled. -/
def sampleState : ComponentState :=
  { initialState with
      loading := false
      showForm := true
      formData := sampleDraft }

/-- When the filter keeps exactly one element, find? returns it. -/
theorem find_of_filter_singleton {α : Type} {p : α → Bool} :
    ∀ (l : List α) (d : α), l.filter p = [d] → l.find? p = some d := by
  intro l
  induction l with
  | nil => intro d h; simp at h
  | cons a t ih =>
      intro d h
      by_cases hp : p a
      · simp only [List.filter_cons, if_pos hp, List.cons.injEq] at h
        rw [List.find?_cons_of_pos _ hp, h.1]
      · have hp2 : p a = false := by simpa using hp
        simp only [List.filter_cons, hp2, Bool.false_eq_true, if_false] at h
        rw [List.find?_cons_of_neg _ hp]
        exact ih d h

/-- C1 counterexample: with a fully valid draft, a resolved non-ok response
to the create POST emits no toast at all (the only effect is the call
itself), refuting the claim that every network or non-ok outcome surfaces an
error notification. -/
theorem C1_counterexample :
    (handleAddAddress true sampleState
      (ApiResult.response false ApiJson.other)).2.countP Effect.isToast = 0 ∧
    (handleAddAddress true sampleState
      (ApiResult.response false ApiJson.other)).2.countP
        Effect.isNetworkCall = 1 := by
  decide

/-- C1 amended: for a create submission that passes local validation, the
generic error toast is surfaced exactly when the call throws; a resolved
non-ok response produces no notification at all. -/
theorem C1_error_toast_only_on_throw (h : Bool) (s : ComponentState)
    (j : ApiJson) (hv : requiredFieldsPresent s.formData = true) :
    (handleAddAddress h s ApiResult.thrown).2.countP Effect.isToast = 1 ∧
    Effect.toast addErrorToast ∈ (handleAddAddress h s ApiResult.thrown).2 ∧
    (handleAddAddress h s (ApiResult.response false j)).2.countP
      Effect.isToast = 0 := by
  refine ⟨?_, ?_, ?_⟩
  · simp [handleAddAddress, hv, List.countP_cons, List.countP_nil,
      Effect.isToast]
  · simp [handleAddAddress, hv]
  · cases j <;>
      simp [handleAddAddress, hv, List.countP_cons, List.countP_nil,
        Effect.isToast]

/-- C1 witness: the amended theorem at a concrete valid state and a
concrete malformed non-ok response. -/
theorem C1_witness :
    requiredFieldsPresent sampleState.formData = true ∧
    (handleAddAddress true sampleState
      (ApiResult.response false ApiJson.other)).2.countP
        Effect.isToast = 0 :=
  ⟨by decide,
    (C1_error_toast_only_on_throw true sampleState ApiJson.other
      (by decide)).2.2⟩

/-- C2: a create submission that passes local validation and whose call
fails (thrown or resolved non-ok) leaves addresses and formData identical to
their pre-submit values and leaves showForm true. -/
theorem C2_failed_create_preserves_state (h : Bool) (s : ComponentState)
    (r : ApiResult) (hv : requiredFieldsPresent s.formData = true)
    (hs : s.showForm = true) (hr : failedResult r = true) :
    (handleAddAddress h s r).1.addresses = s.addresses ∧
    (handleAddAddress h s r).1.formData = s.formData ∧
    (handleAddAddress h s r).1.showForm = true := by
  cases r with
  | thrown => simp [handleAddAddress, hv, hs]
  | response ok j =>
      cases ok with
      | true => simp [failedResult] at hr
      | false => cases j <;> simp [handleAddAddress, hv, hs]

/-- C2 witness: the theorem at a concrete valid pre-submit state and a
concrete non-ok response. -/
theorem C2_witness :
    requiredFieldsPresent sampleState.formData = true ∧
    sampleState.showForm = true ∧
    failedResult (ApiResult.response false ApiJson.other) = true ∧
    ((handleAddAddress true sampleState
        (ApiResult.response false ApiJson.other)).1.addresses =
      sampleState.addresses ∧
     (handleAddAddress true sampleState
        (ApiResult.response false ApiJson.other)).1.formData =
      sampleState.formData ∧
     (handleAddAddress true sampleState
        (ApiResult.response false ApiJson.other)).1.showForm = true) :=
  ⟨by decide, by decide, by decide,
    C2_failed_create_preserves_state true sampleState
      (ApiResult.response false ApiJson.other)
      (by decide) (by decide) (by decide)⟩

/-- C3: when a required field of the draft is empty, the create handler
makes zero network calls, emits exactly the missing-fields warning toast and
leaves the whole component state unchanged; requiredFieldsPresent never
inspects landmark, so an empty landmark does not block submission. -/
theorem C3_validation_rejects_locally (h : Bool) (s : ComponentState)
    (r : ApiResult) (he : requiredFieldsPresent s.formData = false) :
    (handleAddAddress h s r).1 = s ∧
    (handleAddAddress h s r).2 = [Effect.toast missingFieldsToast] ∧
    (handleAddAddress h s r).2.countP Effect.isNetworkCall = 0 ∧
    (∀ f : Address, ∀ o : Option String,
      requiredFieldsPresent { f with landmark := o } =
        requiredFieldsPresent f) := by
  refine ⟨?_, ?_, ?_, fun f o => rfl⟩ <;>
    simp [handleAddAddress, he, List.countP_cons, List.countP_nil,
      Effect.isNetworkCall]

/-- C3 witness: the theorem at a concrete state whose draft has an empty
name field. -/
theorem C3_witness :
    requiredFieldsPresent initialState.formData = false ∧
    ((handleAddAddress true initialState ApiResult.thrown).1 =
      initialState ∧
     (handleAddAddress true initialState ApiResult.thrown).2 =
      [Effect.toast missingFieldsToast] ∧
     (handleAddAddress true initialState ApiResult.thrown).2.countP
        Effect.isNetworkCall = 0) :=
  ⟨by decide,
    (C3_validation_rejects_locally true initialState ApiResult.thrown
        (by decide)).1,
    (C3_validation_rejects_locally true initialState ApiResult.thrown
        (by decide)).2.1,
    (C3_validation_rejects_locally true initialState ApiResult.thrown
        (by decide)).2.2.1⟩

/-- C4: a valid create submission issues exactly one network call, the POST
carrying the draft as payload; on an ok response with a list of addresses,
addresses becomes that list (hence has its length), showForm is false,
formData is reset to the all-empty draft, and onAddressCreated fires exactly
once when supplied and never otherwise. -/
theorem C4_create_success (h : Bool) (s : ComponentState)
    (l : List Address) (hv : requiredFieldsPresent s.formData = true) :
    (handleAddAddress h s (ApiResult.response true (ApiJson.withList l))).2 =
      Effect.networkCall "POST" "/api/auth/addresses" (some s.formData) ::
        Effect.toast addressAddedToast ::
        (if h then [Effect.onAddressCreated] else []) ∧
    (handleAddAddress h s
        (ApiResult.response true (ApiJson.withList l))).2.countP
      Effect.isNetworkCall = 1 ∧
    (handleAddAddress h s
        (ApiResult.response true (ApiJson.withList l))).1.addresses = l ∧
    (handleAddAddress h s
        (ApiResult.response true
          (ApiJson.withList l))).1.addresses.length = l.length ∧
    (handleAddAddress h s
        (ApiResult.response true (ApiJson.withList l))).1.showForm = false ∧
    (handleAddAddress h s
        (ApiResult.response true (ApiJson.withList l))).1.formData =
      emptyDraft ∧
    (handleAddAddress h s
        (ApiResult.response true (ApiJson.withList l))).2.countP
      Effect.isOnAddressCreated = (if h then 1 else 0) := by
  cases h <;>
    simp [handleAddAddress, hv, List.countP_cons, List.countP_nil,
      Effect.isNetworkCall, Effect.isOnAddressCreated]

/-- C4 witness: the theorem at a concrete valid pre-submit state and a
concrete one-element response list, with the callback supplied. -/
theorem C4_witness :
    requiredFieldsPresent sampleState.formData = true ∧
    ((handleAddAddress true sampleState
        (ApiResult.response true
          (ApiJson.withList [sampleAddress]))).1.addresses =
      [sampleAddress] ∧
     (handleAddAddress true sampleState
        (ApiResult.response true
          (ApiJson.withList [sampleAddress]))).1.showForm = false ∧
     (handleAddAddress true sampleState
        (ApiResult.response true
          (ApiJson.withList [sampleAddress]))).1.formData = emptyDraft ∧
     (handleAddAddress true sampleState
        (ApiResult.response true
          (ApiJson.withList [sampleAddress]))).2.countP
        Effect.isOnAddressCreated = 1) := by
  have h := C4_create_success true sampleState [sampleAddress] (by decide)
  exact ⟨by decide, h.2.2.1, h.2.2.2.2.1, h.2.2.2.2.2.1,
    by simpa using h.2.2.2.2.2.2⟩

/-- C5: on a successful load, when exactly one element of the list carries
the default flag and that element has an id (a truthy, non-empty id string),
its id becomes the selection and onAddressSelected fires exactly once with
it; on a list with no default-flagged element the selection is unchanged
(hence stays unset at mount) and the callback does not fire. -/
theorem C5_load_default_selection (s : ComponentState)
    (l l2 : List Address) (d : Address)
    (h1 : l.filter isDefaultTruthy = [d]) (h2 : idTruthy d._id = true)
    (h3 : l2.all (fun a => !(isDefaultTruthy a)) = true) :
    ((fetchAddresses s
        (ApiResult.response true (ApiJson.withList l))).1.selectedAddressId =
      d._id ∧
     (fetchAddresses s
        (ApiResult.response true (ApiJson.withList l))).2.countP
        Effect.isOnAddressSelected = 1 ∧
     Effect.onAddressSelected d ∈
      (fetchAddresses s (ApiResult.response true (ApiJson.withList l))).2 ∧
     (fetchAddresses s
        (ApiResult.response true (ApiJson.withList l))).1.addresses = l) ∧
    ((fetchAddresses s
        (ApiResult.response true
          (ApiJson.withList l2))).1.selectedAddressId =
      s.selectedAddressId ∧
     (fetchAddresses s
        (ApiResult.response true (ApiJson.withList l2))).2.countP
        Effect.isOnAddressSelected = 0) := by
  have hfind := find_of_filter_singleton l d h1
  have hnone : l2.find? isDefaultTruthy = none := by
    rw [List.find?_eq_none]
    intro x hx
    have hall := (List.all_eq_true.mp h3) x hx
    simp only [Bool.not_eq_true'] at hall
    simp [hall]
  constructor
  · simp [fetchAddresses, hfind, h2, List.countP_cons, List.countP_nil,
      Effect.isOnAddressSelected]
  · simp [fetchAddresses, hnone, List.countP_cons, List.countP_nil,
      Effect.isOnAddressSelected]

/-- C5 witness: the theorem at the mount state, a one-element list whose
element is default-flagged with an id, and a one-element list with no
default flag. -/
theorem C5_witness :
    [sampleAddress].filter isDefaultTruthy = [sampleAddress] ∧
    idTruthy sampleAddress._id = true ∧
    [plainAddress].all (fun a => !(isDefaultTruthy a)) = true ∧
    ((fetchAddresses initialState
        (ApiResult.response true
          (ApiJson.withList [sampleAddress]))).1.selectedAddressId =
      sampleAddress._id ∧
     (fetchAddresses initialState
        (ApiResult.response true
          (ApiJson.withList [sampleAddress]))).2.countP
        Effect.isOnAddressSelected = 1) ∧
    ((fetchAddresses initialState
        (ApiResult.response true
          (ApiJson.withList [plainAddress]))).1.selectedAddressId = none ∧
     (fetchAddresses initialState
        (ApiResult.response true (ApiJson.withList [plainAddress]))).2.countP
        Effect.isOnAddressSelected = 0) := by
  have h := C5_load_default_selection initialState [sampleAddress]
    [plainAddress] sampleAddress (by decide) (by decide) (by decide)
  exact ⟨by decide, by decide, by decide, ⟨h.1.1, h.1.2.1⟩,
    ⟨h.2.1, h.2.2⟩⟩

/-- C6: clicking the card of an address that has an id sets the selection
to that id, notifies the parent with the full Address, and emits no network
call, for every prior state. -/
theorem C6_card_click_selects (s : ComponentState) (a : Address)
    (i : String) (hi : a._id = some i) :
    (cardClick s a).1.selectedAddressId = some i ∧
    (cardClick s a).2 = [Effect.onAddressSelected a] ∧
    (cardClick s a).2.countP Effect.isNetworkCall = 0 := by
  refine ⟨?_, rfl, ?_⟩
  · simp [cardClick, hi]
  · simp [cardClick, List.countP_cons, List.countP_nil,
      Effect.isNetworkCall, Effect.isOnAddressSelected]

/-- C6 witness: the theorem at a state that already has a different
selection. -/
theorem C6_witness :
    plainAddress._id = some "a2" ∧
    ((cardClick { sampleState with selectedAddressId := some "a1" }
        plainAddress).1.selectedAddressId = some "a2" ∧
     (cardClick { sampleState with selectedAddressId := some "a1" }
        plainAddress).2 = [Effect.onAddressSelected plainAddress] ∧
     (cardClick { sampleState with selectedAddressId := some "a1" }
        plainAddress).2.countP Effect.isNetworkCall = 0) :=
  ⟨by decide,
    C6_card_click_selects { sampleState with selectedAddressId := some "a1" }
      plainAddress "a2" (by decide)⟩

/-- C7: every confirmed delete whose response is ok with a list replaces
addresses wholesale by that list, re-invokes onAddressSelected zero times
and issues exactly one network call; the resulting selection follows the
code's guard, so in particular when the deleted id equals the current
selection it is cleared to none; a declined confirmation returns the state
unchanged with no effects at all. -/
theorem C7_confirmed_delete (s : ComponentState) (id : String)
    (l : List Address) (r : ApiResult) :
    (handleDeleteAddress s id true
        (ApiResult.response true (ApiJson.withList l))).1.addresses = l ∧
    (handleDeleteAddress s id true
        (ApiResult.response true
          (ApiJson.withList l))).1.selectedAddressId =
      (if s.selectedAddressId == some id then none
        else s.selectedAddressId) ∧
    (s.selectedAddressId = some id →
      (handleDeleteAddress s id true
          (ApiResult.response true
            (ApiJson.withList l))).1.selectedAddressId = none) ∧
    (handleDeleteAddress s id true
        (ApiResult.response true (ApiJson.withList l))).2.countP
      Effect.isOnAddressSelected = 0 ∧
    (handleDeleteAddress s id true
        (ApiResult.response true (ApiJson.withList l))).2.countP
      Effect.isNetworkCall = 1 ∧
    handleDeleteAddress s id false r = (s, []) := by
  refine ⟨?_, ?_, ?_, ?_, ?_, ?_⟩
  · simp [handleDeleteAddress]
  · simp [handleDeleteAddress]
  · intro hsel
    simp [handleDeleteAddress, hsel]
  · simp [handleDeleteAddress, List.countP_cons, List.countP_nil,
      Effect.isOnAddressSelected]
  · simp [handleDeleteAddress, List.countP_cons, List.countP_nil,
      Effect.isNetworkCall]
  · simp [handleDeleteAddress]

/-- C7 witness: the theorem at a state whose selection equals the deleted
id, with a concrete response list and a concrete declined-path result. -/
theorem C7_witness :
    ((handleDeleteAddress { sampleState with selectedAddressId := some "a1" }
        "a1" true
        (ApiResult.response true
          (ApiJson.withList [plainAddress]))).1.addresses =
      [plainAddress] ∧
     (handleDeleteAddress { sampleState with selectedAddressId := some "a1" }
        "a1" true
        (ApiResult.response true
          (ApiJson.withList [plainAddress]))).1.selectedAddressId = none ∧
     handleDeleteAddress { sampleState with selectedAddressId := some "a1" }
      "a1" false ApiResult.thrown =
      ({ sampleState with selectedAddressId := some "a1" }, [])) := by
  have h := C7_confirmed_delete
    { sampleState with selectedAddressId := some "a1" } "a1" [plainAddress]
    ApiResult.thrown
  exact ⟨h.1, h.2.2.1 (by decide), h.2.2.2.2.2⟩

/-- C8: an ok response whose data field is missing or not a list is a no-op
for each of the three calls: addresses, selectedAddressId, showForm and
formData are unchanged and no toast or callback effect is emitted (for the
create call this concerns a submission that passed validation). -/
theorem C8_malformed_ok_noop (s : ComponentState) (h : Bool) (id : String)
    (hv : requiredFieldsPresent s.formData = true) :
    ((fetchAddresses s (ApiResult.response true ApiJson.other)).1.addresses =
      s.addresses ∧
     (fetchAddresses s
        (ApiResult.response true ApiJson.other)).1.selectedAddressId =
      s.selectedAddressId ∧
     (fetchAddresses s (ApiResult.response true ApiJson.other)).1.showForm =
      s.showForm ∧
     (fetchAddresses s (ApiResult.response true ApiJson.other)).1.formData =
      s.formData ∧
     (fetchAddresses s (ApiResult.response true ApiJson.other)).2.countP
        Effect.isToast = 0 ∧
     (fetchAddresses s (ApiResult.response true ApiJson.other)).2.countP
        Effect.isOnAddressSelected = 0 ∧
     (fetchAddresses s (ApiResult.response true ApiJson.other)).2.countP
        Effect.isOnAddressCreated = 0) ∧
    ((handleAddAddress h s
        (ApiResult.response true ApiJson.other)).1.addresses =
      s.addresses ∧
     (handleAddAddress h s
        (ApiResult.response true ApiJson.other)).1.selectedAddressId =
      s.selectedAddressId ∧
     (handleAddAddress h s
        (ApiResult.response true ApiJson.other)).1.showForm = s.showForm ∧
     (handleAddAddress h s
        (ApiResult.response true ApiJson.other)).1.formData = s.formData ∧
     (handleAddAddress h s (ApiResult.response true ApiJson.other)).2.countP
        Effect.isToast = 0 ∧
     (handleAddAddress h s (ApiResult.response true ApiJson.other)).2.countP
        Effect.isOnAddressSelected = 0 ∧
     (handleAddAddress h s (ApiResult.response true ApiJson.other)).2.countP
        Effect.isOnAddressCreated = 0) ∧
    ((handleDeleteAddress s id true
        (ApiResult.response true ApiJson.other)).1 = s ∧
     (handleDeleteAddress s id true
        (ApiResult.response true ApiJson.other)).2.countP
        Effect.isToast = 0 ∧
     (handleDeleteAddress s id true
        (ApiResult.response true ApiJson.other)).2.countP
        Effect.isOnAddressSelected = 0 ∧
     (handleDeleteAddress s id true
        (ApiResult.response true ApiJson.other)).2.countP
        Effect.isOnAddressCreated = 0) := by
  refine ⟨⟨?_, ?_, ?_, ?_, ?_, ?_, ?_⟩, ⟨?_, ?_, ?_, ?_, ?_, ?_, ?_⟩,
    ⟨?_, ?_, ?_, ?_⟩⟩ <;>
    simp [fetchAddresses, handleAddAddress, handleDeleteAddress, hv,
      List.countP_cons, List.countP_nil, Effect.isToast,
      Effect.isOnAddressSelected, Effect.isOnAddressCreated]

/-- C8 witness: the theorem at a concrete valid pre-submit state and a
concrete id. -/
theorem C8_witness :
    requiredFieldsPresent sampleState.formData = true ∧
    ((fetchAddresses sampleState
        (ApiResult.response true ApiJson.other)).1.addresses =
      sampleState.addresses ∧
     (handleAddAddress true sampleState
        (ApiResult.response true ApiJson.other)).1.formData =
      sampleState.formData ∧
     (handleDeleteAddress sampleState "a1" true
        (ApiResult.response true ApiJson.other)).1 = sampleState) := by
  have h := C8_malformed_ok_noop sampleState true "a1" (by decide)
  exact ⟨by decide, h.1.1, h.2.1.2.2.2.1, h.2.2.1⟩

/-- C9 counterexample: cancelling the creation form at a state with a fully
filled draft hides the form but leaves formData equal to the draft, which
differs from the all-empty draft, refuting the claim that cancel resets
formData. -/
theorem C9_counterexample :
    (cancelClick sampleState).1.showForm = false ∧
    (cancelClick sampleState).1.formData = sampleDraft ∧
    sampleDraft ≠ emptyDraft := by
  refine ⟨rfl, rfl, by decide⟩

/-- C9 amended: formData is reset to the all-empty draft after a successful
submission, while the Cancel action only hides the form and leaves formData
unchanged. -/
theorem C9_reset_on_success_not_on_cancel (h : Bool) (s : ComponentState)
    (l : List Address) (hv : requiredFieldsPresent s.formData = true) :
    (handleAddAddress h s
        (ApiResult.response true (ApiJson.withList l))).1.formData =
      emptyDraft ∧
    (cancelClick s).1.formData = s.formData ∧
    (cancelClick s).1.showForm = false := by
  refine ⟨?_, rfl, rfl⟩
  simp [handleAddAddress, hv]

/-- C9 witness: the amended theorem at a concrete valid pre-submit state. -/
theorem C9_witness :
    requiredFieldsPresent sampleState.formData = true ∧
    ((handleAddAddress true sampleState
        (ApiResult.response true
          (ApiJson.withList [sampleAddress]))).1.formData = emptyDraft ∧
     (cancelClick sampleState).1.formData = sampleState.formData ∧
     (cancelClick sampleState).1.showForm = false) :=
  ⟨by decide,
    C9_reset_on_success_not_on_cancel true sampleState [sampleAddress]
      (by decide)⟩

/-- C10: on a successful load whose first default-flagged element lacks an
id, the list is stored but no selection is made and onAddressSelected does
not fire. -/
theorem C10_default_without_id (s : ComponentState) (l : List Address)
    (d : Address) (hf : l.find? isDefaultTruthy = some d)
    (hid : d._id = none) :
    (fetchAddresses s
        (ApiResult.response true (ApiJson.withList l))).1.selectedAddressId =
      s.selectedAddressId ∧
    (fetchAddresses s
        (ApiResult.response true (ApiJson.withList l))).2.countP
      Effect.isOnAddressSelected = 0 ∧
    (fetchAddresses s
        (ApiResult.response true (ApiJson.withList l))).1.addresses = l := by
  simp [fetchAddresses, hf, hid, idTruthy, List.countP_cons,
    List.countP_nil, Effect.isOnAddressSelected]

/-- C10 witness: the theorem at the mount state and a one-element list whose
element is default-flagged without an id. -/
theorem C10_witness :
    [noIdDefaultAddress].find? isDefaultTruthy = some noIdDefaultAddress ∧
    noIdDefaultAddress._id = none ∧
    ((fetchAddresses initialState
        (ApiResult.response true
          (ApiJson.withList [noIdDefaultAddress]))).1.selectedAddressId =
      none ∧
     (fetchAddresses initialState
        (ApiResult.response true
          (ApiJson.withList [noIdDefaultAddress]))).2.countP
        Effect.isOnAddressSelected = 0) := by
  have h := C10_default_without_id initialState [noIdDefaultAddress]
    noIdDefaultAddress (by decide) (by decide)
  exact ⟨by decide, by decide, h.1, h.2.1⟩

end AddressSelector
